import Mathlib

/-
  Shallow embedding of the compressor repository
  (compressors/Image_compressor.py, compressors/video_compressor.py,
  compressors/base_compressor.py, compressors/compresssor_config.py,
  services/compression_service.py, api_main.py, s3_handler.py).

  External effects (subprocess runs of the transcoding tool, the image
  library save call, object-storage operations, filesystem stat and
  unlink calls) are modelled as oracles: a record of the outcomes the
  environment produces for the single call the Python code makes.  The
  Lean definitions mirror the Python control flow over those outcomes.
-/

namespace Compressor

/-- Python str.lower restricted to the ASCII extension strings this
    code applies it to, written over the character list so that it
    evaluates in the kernel. -/
def lowerString (s : String) : String :=
  ⟨s.data.map Char.toLower⟩

/-- compresssor_config.py line 11: supported raster image extensions. -/
def IMAGE_FORMATS : List String :=
  [".png", ".jpg", ".jpeg", ".tiff", ".tif", ".webp", ".bmp"]

/-- compresssor_config.py line 12: supported video extensions. -/
def VIDEO_FORMATS : List String :=
  [".mp4", ".avi", ".mov", ".mkv", ".webm", ".flv"]

/-- compresssor_config.py line 21: skip-copy size threshold (bytes). -/
def MAX_FILE_SIZE_FOR_SKIP : Nat := 5000000

/-- compresssor_config.py line 55: minimum saving fraction; defined in the
    configuration but consulted nowhere in the compression code. -/
def MIN_COMPRESSION_SAVING : ℚ := 5 / 100

/-- Outcome of one subprocess run of the external transcoding tool.
    toolOk is false when the tool binary is missing or the run raises
    (the Python code catches FileNotFoundError and any other exception
    and treats the attempt as failed); returncode is the process exit
    status; outputSize is the size in bytes of the file found at the
    output path after the run. -/
structure ToolRun where
  toolOk : Bool
  returncode : Int
  outputSize : Nat
deriving DecidableEq, Repr

/-- Outcome of the image-library (PIL) save call: ok is false when the
    save raises (corrupt input, unsupported mode); outputSize is the
    size of the file written on success.  The format-specific save
    parameters chosen by the Python code are absorbed into this oracle. -/
structure PilRun where
  ok : Bool
  outputSize : Nat
deriving DecidableEq, Repr

/-- Environment of one ImageCompressor.compress call: the input file
    size and the oracles for the two strategies. -/
structure ImageEnv where
  inputSize : Nat
  ffmpeg : ToolRun
  pil : PilRun
deriving DecidableEq, Repr

/-- Strategy that produced an image compression result. -/
inductive ImageMethod where
  | ffmpeg
  | pil
deriving DecidableEq, Repr

/-- A returned compression result: which strategy produced it and the
    size in bytes of the file at the returned output path. -/
structure ImageResult where
  method : ImageMethod
  size : Nat
deriving DecidableEq, Repr

namespace ImageCompressor

/-- Image_compressor.py lines 24-26: extension membership test against
    the configured image-format set, after lower-casing. -/
def supports_format (file_extension : String) : Bool :=
  IMAGE_FORMATS.contains (lowerString file_extension)

/-- Image_compressor.py lines 48-86: build a tool command for jpg/jpeg,
    png or webp inputs and run it; any other extension returns False
    without running the tool; success is exactly a completed run with
    exit status zero (line 81).  The output file is not inspected. -/
def compressWithFfmpeg (ext : String) (env : ImageEnv) : Bool :=
  if lowerString ext = ".jpg" ∨ lowerString ext = ".jpeg" then
    env.ffmpeg.toolOk && (env.ffmpeg.returncode == 0)
  else if lowerString ext = ".png" then
    env.ffmpeg.toolOk && (env.ffmpeg.returncode == 0)
  else if lowerString ext = ".webp" then
    env.ffmpeg.toolOk && (env.ffmpeg.returncode == 0)
  else false

/-- Image_compressor.py lines 88-115: library fallback; returns the
    output path (here: the written size) on success, none when the save
    raises. -/
def compressWithPil (env : ImageEnv) : Option Nat :=
  if env.pil.ok then some env.pil.outputSize else none

/-- Image_compressor.py lines 28-46: reject unsupported extensions,
    try the external tool first, fall back to the library. -/
def compress (ext : String) (env : ImageEnv) : Option ImageResult :=
  if supports_format ext = false then none
  else if compressWithFfmpeg ext env then
    some { method := ImageMethod.ffmpeg, size := env.ffmpeg.outputSize }
  else
    match compressWithPil env with
    | some sz => some { method := ImageMethod.pil, size := sz }
    | none => none

end ImageCompressor

/-- base_compressor.py lines 28-32: compression ratio with a zero
    guard; sizes are byte counts, division modelled exactly over ℚ. -/
def calculate_compression_ratio (original_size compressed_size : Nat) : ℚ :=
  if original_size = 0 then 0
  else (1 - (compressed_size : ℚ) / (original_size : ℚ)) * 100

/-- base_compressor.py lines 35-36: output path is the output directory
    joined with the prefix followed by the original filename. -/
def get_output_path (output_dir pre name : String) : String :=
  output_dir ++ "/" ++ pre ++ name

/-- Environment of one VideoCompressor.compress call: the input file
    size and the oracles for the stream-remux and re-encode runs. -/
structure VideoEnv where
  originalSize : Nat
  remux : ToolRun
  reencode : ToolRun
deriving DecidableEq, Repr

/-- Strategy that produced a video compression result. -/
inductive VideoMethod where
  | streamCopy
  | skipCopy
  | reencoded
deriving DecidableEq, Repr

/-- A returned video result: output path, size at that path, strategy. -/
structure VideoResult where
  path : String
  size : Nat
  method : VideoMethod
deriving DecidableEq, Repr

namespace VideoCompressor

/-- video_compressor.py lines 22-24: extension membership test against
    the configured video-format set, after lower-casing. -/
def supports_format (file_extension : String) : Bool :=
  VIDEO_FORMATS.contains (lowerString file_extension)

/-- video_compressor.py lines 67-88: run the codec-copy remux; succeed
    exactly when the run completes with exit status zero and the copy
    is strictly smaller than the original (lines 79-83); any exception
    yields False. -/
def tryStreamCopy (env : VideoEnv) : Bool :=
  env.remux.toolOk && (env.remux.returncode == 0)
    && decide (env.remux.outputSize < env.originalSize)

/-- video_compressor.py lines 94-124: re-encode; the result path is
    returned on exit status zero, otherwise none (tool missing or any
    exception also yields none). -/
def reencodeVideo (output_dir name : String) (env : VideoEnv) : Option VideoResult :=
  if env.reencode.toolOk && (env.reencode.returncode == 0) then
    some { path := get_output_path output_dir "compressed_" name,
           size := env.reencode.outputSize, method := VideoMethod.reencoded }
  else none

/-- video_compressor.py lines 35-64: stream copy first; else, when the
    original is below the skip threshold, copy it verbatim to an output
    named with the empty prefix (line 49); else re-encode. -/
def intelligentCompression (output_dir name : String) (env : VideoEnv) : Option VideoResult :=
  if tryStreamCopy env then
    some { path := get_output_path output_dir "compressed_" name,
           size := env.remux.outputSize, method := VideoMethod.streamCopy }
  else if env.originalSize < MAX_FILE_SIZE_FOR_SKIP then
    some { path := get_output_path output_dir "" name,
           size := env.originalSize, method := VideoMethod.skipCopy }
  else reencodeVideo output_dir name env

/-- video_compressor.py lines 26-32: reject unsupported extensions,
    then run the intelligent-compression chain. -/
def compress (ext output_dir name : String) (env : VideoEnv) : Option VideoResult :=
  if supports_format ext = false then none
  else intelligentCompression output_dir name env

end VideoCompressor

/-- compression_service.py lines 49 and 80: the per-record ratio,
    written there with a strict positivity guard. -/
def serviceRatio (original_size compressed_size : Nat) : ℚ :=
  if 0 < original_size then (1 - (compressed_size : ℚ) / (original_size : ℚ)) * 100
  else 0

/-- What the service knows about one candidate file: its name, its size
    on disk, and the oracle outcome of compress_file on it (none models
    a per-file failure: unsupported format or both strategies failing). -/
structure FileInfo where
  name : String
  size : Nat
  compressResult : Option (String × Nat)
deriving DecidableEq, Repr

/-- One entry produced by iterating a directory: the file data plus the
    regular-file test used at compression_service.py line 42. -/
structure DirEntry where
  info : FileInfo
  isFile : Bool
deriving DecidableEq, Repr

/-- One batch result record, compression_service.py lines 51-64: the
    success record carries sizes and ratio, the failure record carries
    only the input name, no output and success false. -/
structure FileRecord where
  input_file : String
  output_file : Option String
  original_size : Option Nat
  compressed_size : Option Nat
  compression_ratio : Option ℚ
  success : Bool
deriving DecidableEq, Repr

namespace CompressionService

/-- compression_service.py lines 43-64: the record appended for one
    regular file, depending only on that file's own compression outcome. -/
def record_of (f : FileInfo) : FileRecord :=
  match f.compressResult with
  | some (out, csize) =>
    { input_file := f.name, output_file := some out,
      original_size := some f.size, compressed_size := some csize,
      compression_ratio := some (serviceRatio f.size csize), success := true }
  | none =>
    { input_file := f.name, output_file := none,
      original_size := none, compressed_size := none,
      compression_ratio := none, success := false }

/-- compression_service.py lines 32-66: iterate the directory entries in
    order, handle each regular file, skip everything else. -/
def compress_directory : List DirEntry → List FileRecord
  | [] => []
  | e :: rest =>
    if e.isFile then record_of e.info :: compress_directory rest
    else compress_directory rest

/-- An element of the input list of compress_multiple_files: a regular
    file, a directory with its entries, or a path that is neither. -/
inductive InputPath where
  | file (f : FileInfo)
  | dir (entries : List DirEntry)
  | other (name : String)
deriving Repr

/-- compression_service.py lines 68-101: handle each input in order; a
    regular file yields its record, a directory is expanded through
    compress_directory, anything else is skipped. -/
def compress_multiple_files : List InputPath → List FileRecord
  | [] => []
  | InputPath.file f :: rest => record_of f :: compress_multiple_files rest
  | InputPath.dir es :: rest => compress_directory es ++ compress_multiple_files rest
  | InputPath.other _ :: rest => compress_multiple_files rest

/-- Number of result records one element of the input list contributes:
    one for a regular file, one per regular file inside a directory,
    none for a path that is neither. -/
def inputFileCount : InputPath → Nat
  | InputPath.file _ => 1
  | InputPath.dir es => (es.filter (fun e => e.isFile)).length
  | InputPath.other _ => 0

end CompressionService

/-- The mutable numeric fields of the shared compressor configuration
    (compresssor_config.py lines 15-17) that api_main.py writes. -/
structure CompressorConfig where
  JPEG_QUALITY : Nat
  PNG_COMPRESSION_LEVEL : Nat
  FFMPEG_IMAGE_QUALITY : Nat
deriving DecidableEq, Repr

/-- compresssor_config.py lines 15-17: the values the shared
    configuration object holds at process start. -/
def defaultConfig : CompressorConfig :=
  { JPEG_QUALITY := 85, PNG_COMPRESSION_LEVEL := 6, FFMPEG_IMAGE_QUALITY := 2 }

/-- api_main.py lines 440-457: the effect of apply_compression on the
    process-wide image_compressor.config object.  Each recognised tier
    overwrites the three shared fields; the final else branch (lines
    455-457) renames the local quality variable to medium but assigns
    no field, so the shared object keeps whatever the previous call
    left in it. -/
def applyQualitySettings (quality : String) (cfg : CompressorConfig) : CompressorConfig :=
  if quality = "low" then
    { JPEG_QUALITY := 75, PNG_COMPRESSION_LEVEL := 9, FFMPEG_IMAGE_QUALITY := 3 }
  else if quality = "medium" then
    { JPEG_QUALITY := 85, PNG_COMPRESSION_LEVEL := 6, FFMPEG_IMAGE_QUALITY := 2 }
  else if quality = "high" then
    { JPEG_QUALITY := 95, PNG_COMPRESSION_LEVEL := 3, FFMPEG_IMAGE_QUALITY := 1 }
  else cfg

/-- api_main.py lines 154 and 219: the recognised quality tiers. -/
def validTier (quality : String) : Bool :=
  quality = "low" || quality = "medium" || quality = "high"

/-- api_main.py lines 162 and 243: destination key derived from the
    source key and the compress flag. -/
def destKey (key : String) (compress : Bool) : String :=
  if compress then "compressed/" ++ key else "copied/" ++ key

/-- The object-storage contents visible to one request: the keys
    present in the source bucket and in the destination bucket. -/
structure S3State where
  sourceKeys : List String
  destKeys : List String
deriving Repr

/-- Synchronous outcome of the start-processing endpoint. -/
inductive ProcAction where
  | invalidQuality
  | notFound
  | skipped
  | processing
deriving DecidableEq, Repr

/-- A scheduled background unit of work. -/
structure Request where
  key : String
  compress : Bool
  quality : String
deriving DecidableEq, Repr

/-- What the synchronous endpoint did: its outcome, the existence
    checks it issued against storage (bucket tag and key, in order),
    the storage writes it performed, and the background tasks it
    scheduled. -/
structure ProcResponse where
  action : ProcAction
  reads : List (String × String)
  writes : List (String × String)
  tasks : List Request
deriving DecidableEq, Repr

/-- api_main.py lines 130-193: validate the tier (line 154), check the
    source key (line 158), check the derived destination key (line
    163), and either answer skipped or schedule one background task
    (lines 174-177).  The synchronous path performs no storage write. -/
def process_single_image (st : S3State) (key : String) (compress : Bool)
    (quality : String) : ProcResponse :=
  if validTier quality = false then
    { action := ProcAction.invalidQuality, reads := [], writes := [], tasks := [] }
  else if st.sourceKeys.contains key = false then
    { action := ProcAction.notFound, reads := [("source", key)],
      writes := [], tasks := [] }
  else if st.destKeys.contains (destKey key compress) then
    { action := ProcAction.skipped,
      reads := [("source", key), ("dest", destKey key compress)],
      writes := [], tasks := [] }
  else
    { action := ProcAction.processing,
      reads := [("source", key), ("dest", destKey key compress)],
      writes := [],
      tasks := [{ key := key, compress := compress, quality := quality }] }

/-- Effect on storage of the background unit completing its upload
    (s3_handler.py lines 147-190 writing the destination key). -/
def uploadCompleted (st : S3State) (key : String) (compress : Bool) : S3State :=
  { st with destKeys := destKey key compress :: st.destKeys }

/-- A value of a Python call that may raise: ok carries the returned
    value, exc models an exception propagating out of the call. -/
inductive PyResult (α : Type) where
  | ok (a : α)
  | exc
deriving DecidableEq, Repr

/-- Environment of one apply_compression call: the image-compressor
    oracle for the underlying compress call, whether the returned path
    exists on disk (api_main.py line 464), and whether anything else in
    the try body raises unexpectedly. -/
structure ApplyEnv where
  image : ImageEnv
  resultExists : Bool
  unexpectedRaise : Bool
deriving DecidableEq, Repr

/-- api_main.py lines 438-469: the body of the try block of
    apply_compression — select the tier settings, run the image
    compressor, and return its path when the result exists. -/
def applyCompressionBody (ext : String) (env : ApplyEnv) : PyResult (Option ImageResult) :=
  if env.unexpectedRaise then PyResult.exc
  else
    match ImageCompressor.compress ext env.image with
    | some r => PyResult.ok (if env.resultExists then some r else none)
    | none => PyResult.ok none

/-- api_main.py lines 427-473: apply_compression wraps its body in a
    try/except that converts any exception into a None return (lines
    471-473), so the caller only ever sees an outcome flag. -/
def apply_compression (ext : String) (env : ApplyEnv) : Option ImageResult :=
  match applyCompressionBody ext env with
  | PyResult.ok r => r
  | PyResult.exc => none

/-- Which local file the orchestrator handed to the upload call. -/
inductive UpFile where
  | original
  | compressed
deriving DecidableEq, Repr

/-- Terminal state of one background processing unit. -/
inductive Outcome where
  | downloadFailed
  | caughtException
  | uploadFailed
  | done
deriving DecidableEq, Repr

/-- Environment of one process_image_background run: the download
    outcome (none = failed, some n = a temp file of n bytes),
    fault-injection flags for the three filesystem stat calls the body
    makes outside absorbing handlers (api_main.py lines 374, 386, 412),
    the apply_compression outcome, the upload outcome, and whether the
    two unlink attempts raise. -/
structure OrchEnv where
  download : Option Nat
  statOriginalRaises : Bool
  statCompressedRaises : Bool
  compression : Option Nat
  uploadOk : Bool
  statFinalRaises : Bool
  deleteOriginalRaises : Bool
  deleteCompressedRaises : Bool
deriving DecidableEq, Repr

/-- Observable trace of one background processing unit: terminal
    outcome, which file was given to upload (none when upload was never
    reached), whether deletion of the downloaded original and of the
    distinct compressed derivative was attempted, and whether an
    exception escaped to the task scheduler. -/
structure Trace where
  outcome : Outcome
  uploaded : Option UpFile
  cleanupOriginal : Bool
  cleanupCompressed : Bool
  raised : Bool
deriving DecidableEq, Repr

/-- api_main.py lines 355-425, mirrored branch by branch.
    Download failure returns early (lines 369-371).  The stat of the
    original at line 374 sits before any absorbing handler: a raise
    there reaches the outer except (lines 424-425), which logs and
    returns without running the cleanup lines 420-422.  The compression
    block (lines 377-400) absorbs its own exceptions and falls back to
    the original file; a raise at the stat of the compressed file (line
    386) is caught by the inner except (lines 397-400), which resets
    processed_file to the original even though the compressed file was
    produced.  Upload returns a flag.  When upload succeeded, the stat
    at line 412 and the unguarded ratio division at line 414 (zero
    original size) can raise, again reaching the outer except before
    cleanup.  Otherwise cleanup of the original is attempted, and of
    the compressed file when processed_file is distinct from it; the
    unlink handlers (s3_handler.py lines 253-265) absorb deletion
    failures.  The outer except never re-raises. -/
def process_image_background (compress : Bool) (env : OrchEnv) : Trace :=
  match env.download with
  | none =>
    { outcome := Outcome.downloadFailed, uploaded := none,
      cleanupOriginal := false, cleanupCompressed := false, raised := false }
  | some origSize =>
    if env.statOriginalRaises then
      { outcome := Outcome.caughtException, uploaded := none,
        cleanupOriginal := false, cleanupCompressed := false, raised := false }
    else
      let comp : Option Nat :=
        if compress then
          match env.compression with
          | some csize => if env.statCompressedRaises then none else some csize
          | none => none
        else none
      let usedCompressed : Bool := comp.isSome
      let compressedDistinct : Bool := usedCompressed
      let finalSize : Nat := match comp with | some csize => csize | none => origSize
      let uploadedFile : UpFile :=
        if usedCompressed then UpFile.compressed else UpFile.original
      if env.uploadOk then
        if env.statFinalRaises then
          { outcome := Outcome.caughtException, uploaded := some uploadedFile,
            cleanupOriginal := false, cleanupCompressed := false, raised := false }
        else if compress ∧ finalSize ≠ origSize ∧ origSize = 0 then
          { outcome := Outcome.caughtException, uploaded := some uploadedFile,
            cleanupOriginal := false, cleanupCompressed := false, raised := false }
        else
          { outcome := Outcome.done, uploaded := some uploadedFile,
            cleanupOriginal := true, cleanupCompressed := compressedDistinct,
            raised := false }
      else
        { outcome := Outcome.uploadFailed, uploaded := some uploadedFile,
          cleanupOriginal := true, cleanupCompressed := compressedDistinct,
          raised := false }

/-
  Shared helper lemmas.
-/

/-- A completed tool run with exit status zero, as a proposition. -/
theorem toolRun_ok_iff (r : ToolRun) :
    (r.toolOk && (r.returncode == 0)) = true ↔ (r.toolOk = true ∧ r.returncode = 0) := by
  simp [Bool.and_eq_true, beq_iff_eq]

/-- The four extensions with an external-encoder path are all in the
    configured image-format set. -/
theorem mem_image_formats_of_ffmpeg_ext (s : String)
    (h : s = ".jpg" ∨ s = ".jpeg" ∨ s = ".png" ∨ s = ".webp") :
    IMAGE_FORMATS.contains s = true := by
  rcases h with h | h | h | h <;> subst h <;> rfl

/-- Characterization of the external-encoder branch of
    Image_compressor.py lines 48-86: a completed run with exit status
    zero on one of the four handled extensions, and nothing else. -/
theorem compressWithFfmpeg_eq_true_iff (ext : String) (env : ImageEnv) :
    ImageCompressor.compressWithFfmpeg ext env = true ↔
      ((lowerString ext = ".jpg" ∨ lowerString ext = ".jpeg" ∨
          lowerString ext = ".png" ∨ lowerString ext = ".webp") ∧
        env.ffmpeg.toolOk = true ∧ env.ffmpeg.returncode = 0) := by
  unfold ImageCompressor.compressWithFfmpeg
  split_ifs with h1 h2 h3
  · rw [toolRun_ok_iff]; tauto
  · rw [toolRun_ok_iff]; tauto
  · rw [toolRun_ok_iff]; tauto
  · simp only [Bool.false_eq_true, false_iff]
    tauto

/-- When the external-encoder branch succeeds, compress returns its
    output without inspecting the produced file. -/
theorem compress_of_ffmpeg_success (ext : String) (env : ImageEnv)
    (hf : ImageCompressor.compressWithFfmpeg ext env = true) :
    ImageCompressor.compress ext env =
      some { method := ImageMethod.ffmpeg, size := env.ffmpeg.outputSize } := by
  have h4 := ((compressWithFfmpeg_eq_true_iff ext env).mp hf).1
  have hS : ImageCompressor.supports_format ext = true := by
    unfold ImageCompressor.supports_format
    exact mem_image_formats_of_ffmpeg_ext _ h4
  unfold ImageCompressor.compress
  rw [hS, hf]
  simp

/-
  Claim theorems.
-/

/-- C1, counterexample: at an environment where the tool run exits with
    status zero but writes an empty output file, the code counts the
    external-encoder path as successful even though the claimed success
    condition (exit zero AND non-empty output) is violated, and compress
    returns a result whose file is empty. -/
theorem claim_C1_counterexample :
    ImageCompressor.compressWithFfmpeg ".jpg"
      { inputSize := 10,
        ffmpeg := { toolOk := true, returncode := 0, outputSize := 0 },
        pil := { ok := false, outputSize := 0 } } = true ∧
    ¬ (ImageCompressor.compressWithFfmpeg ".jpg"
        { inputSize := 10,
          ffmpeg := { toolOk := true, returncode := 0, outputSize := 0 },
          pil := { ok := false, outputSize := 0 } } = true ↔
        ((0 : Int) = 0 ∧ (0 : Nat) ≠ 0)) ∧
    ImageCompressor.compress ".jpg"
      { inputSize := 10,
        ffmpeg := { toolOk := true, returncode := 0, outputSize := 0 },
        pil := { ok := false, outputSize := 0 } } =
      some { method := ImageMethod.ffmpeg, size := 0 } := by
  decide

/-- C1, amended: the external-encoder path counts as successful exactly
    when the tool ran to completion with exit status zero on a handled
    extension — the output file is never inspected — and on such success
    compress returns the tool output path whatever its size, so it can
    return a path to an empty file. -/
theorem claim_C1_ffmpeg_exit_status (ext : String) (env : ImageEnv) :
    (ImageCompressor.compressWithFfmpeg ext env = true ↔
      ((lowerString ext = ".jpg" ∨ lowerString ext = ".jpeg" ∨
          lowerString ext = ".png" ∨ lowerString ext = ".webp") ∧
        env.ffmpeg.toolOk = true ∧ env.ffmpeg.returncode = 0)) ∧
    (ImageCompressor.compressWithFfmpeg ext env = true →
      ImageCompressor.compress ext env =
        some { method := ImageMethod.ffmpeg, size := env.ffmpeg.outputSize }) :=
  ⟨compressWithFfmpeg_eq_true_iff ext env, compress_of_ffmpeg_success ext env⟩

/-- C1, witness for the amended theorem at a concrete environment. -/
theorem claim_C1_ffmpeg_exit_status_witness :
    ImageCompressor.compress ".png"
      { inputSize := 5, ffmpeg := { toolOk := true, returncode := 0, outputSize := 3 },
        pil := { ok := false, outputSize := 0 } } =
      some { method := ImageMethod.ffmpeg, size := 3 } :=
  (claim_C1_ffmpeg_exit_status ".png" _).2 (by decide)

/-- C2: the code mutates the process-wide settings object — applying a
    tier changes the shared configuration, an interleaved call with a
    different tier changes it again, and the settings then read by the
    first call carry the second call's parameters (95, not 75). -/
theorem claim_C2_shared_settings_mutation :
    applyQualitySettings "low" defaultConfig ≠ defaultConfig ∧
    applyQualitySettings "high" (applyQualitySettings "low" defaultConfig) ≠
      applyQualitySettings "low" defaultConfig ∧
    (applyQualitySettings "high" (applyQualitySettings "low" defaultConfig)).JPEG_QUALITY = 95 ∧
    (applyQualitySettings "low" defaultConfig).JPEG_QUALITY = 75 := by
  decide

/-- C6: the compression ratio equals (1 - compressed/original) * 100
    for a non-zero original size, is defined as 0 for a zero original
    size, and the service-layer formula agrees with the base-class one
    at every input. -/
theorem claim_C6_ratio_law (o c : Nat) :
    (o ≠ 0 → calculate_compression_ratio o c = (1 - (c : ℚ) / (o : ℚ)) * 100) ∧
    calculate_compression_ratio 0 c = 0 ∧
    serviceRatio o c = calculate_compression_ratio o c := by
  refine ⟨fun h => by simp [calculate_compression_ratio, h],
    by simp [calculate_compression_ratio], ?_⟩
  rcases Nat.eq_zero_or_pos o with h | h
  · subst h
    simp [serviceRatio, calculate_compression_ratio]
  · have h0 : o ≠ 0 := Nat.pos_iff_ne_zero.mp h
    simp [serviceRatio, calculate_compression_ratio, h, h0]

/-- C6, witness at original size 200 and compressed size 50. -/
theorem claim_C6_ratio_law_witness :
    calculate_compression_ratio 200 50 = (1 - (50 : ℚ) / (200 : ℚ)) * 100 :=
  (claim_C6_ratio_law 200 50).1 (by decide)

/-- C10: a successful image result is returned with no size-reduction
    requirement — the result does not depend on the input size at all,
    an external-encoder success is returned even when the output is
    larger than the input, and the reported ratio is then negative. -/
theorem claim_C10_no_size_requirement :
    (∀ (ext : String) (e1 e2 : ImageEnv), e1.ffmpeg = e2.ffmpeg → e1.pil = e2.pil →
      ImageCompressor.compress ext e1 = ImageCompressor.compress ext e2) ∧
    (∀ env : ImageEnv, ImageCompressor.compressWithFfmpeg ".jpg" env = true →
      ImageCompressor.compress ".jpg" env =
        some { method := ImageMethod.ffmpeg, size := env.ffmpeg.outputSize }) ∧
    (∀ o c : Nat, 0 < o → o < c → calculate_compression_ratio o c < 0) := by
  refine ⟨?_, fun env hf => compress_of_ffmpeg_success ".jpg" env hf, ?_⟩
  · intro ext e1 e2 h1 h2
    simp only [ImageCompressor.compress, ImageCompressor.compressWithFfmpeg,
      ImageCompressor.compressWithPil, ImageCompressor.supports_format, h1, h2]
  · intro o c ho hoc
    have h0 : (0 : ℚ) < (o : ℚ) := by exact_mod_cast ho
    have h1 : (o : ℚ) < (c : ℚ) := by exact_mod_cast hoc
    have h2 : (1 : ℚ) < (c : ℚ) / (o : ℚ) := (one_lt_div h0).mpr h1
    have ho' : o ≠ 0 := Nat.pos_iff_ne_zero.mp ho
    simp only [calculate_compression_ratio, ho', if_false]
    nlinarith

/-- C5: the video chain in strategy order — the remux is accepted
    exactly when its run completed with exit status zero and its result
    is strictly smaller than the original; a rejected remux on an
    original below the 5,000,000-byte threshold yields a verbatim copy
    named with the plain filename; above the threshold the file is
    re-encoded and a re-encode failure yields failure with no further
    fallback; compress runs this chain for every supported extension. -/
theorem claim_C5_video_strategy_chain (output_dir name : String) (env : VideoEnv) :
    MAX_FILE_SIZE_FOR_SKIP = 5000000 ∧
    (VideoCompressor.tryStreamCopy env = true ↔
      (env.remux.toolOk = true ∧ env.remux.returncode = 0 ∧
        env.remux.outputSize < env.originalSize)) ∧
    (VideoCompressor.tryStreamCopy env = true →
      VideoCompressor.intelligentCompression output_dir name env =
        some { path := get_output_path output_dir "compressed_" name,
               size := env.remux.outputSize, method := VideoMethod.streamCopy }) ∧
    (VideoCompressor.tryStreamCopy env = false →
      env.originalSize < MAX_FILE_SIZE_FOR_SKIP →
      VideoCompressor.intelligentCompression output_dir name env =
        some { path := get_output_path output_dir "" name,
               size := env.originalSize, method := VideoMethod.skipCopy }) ∧
    (VideoCompressor.tryStreamCopy env = false →
      ¬ env.originalSize < MAX_FILE_SIZE_FOR_SKIP →
      (env.reencode.toolOk && (env.reencode.returncode == 0)) = false →
      VideoCompressor.intelligentCompression output_dir name env = none) ∧
    (VideoCompressor.tryStreamCopy env = false →
      ¬ env.originalSize < MAX_FILE_SIZE_FOR_SKIP →
      (env.reencode.toolOk && (env.reencode.returncode == 0)) = true →
      VideoCompressor.intelligentCompression output_dir name env =
        some { path := get_output_path output_dir "compressed_" name,
               size := env.reencode.outputSize, method := VideoMethod.reencoded }) ∧
    (∀ ext : String, VideoCompressor.supports_format ext = true →
      VideoCompressor.compress ext output_dir name env =
        VideoCompressor.intelligentCompression output_dir name env) := by
  refine ⟨rfl, ?_, ?_, ?_, ?_, ?_, ?_⟩
  · simp [VideoCompressor.tryStreamCopy, Bool.and_eq_true, beq_iff_eq,
      decide_eq_true_eq, and_assoc]
  · intro h
    simp [VideoCompressor.intelligentCompression, h]
  · intro h hsmall
    simp [VideoCompressor.intelligentCompression, h, hsmall]
  · intro h hbig hre
    simp [VideoCompressor.intelligentCompression, VideoCompressor.reencodeVideo,
      h, hbig, hre]
  · intro h hbig hre
    simp [VideoCompressor.intelligentCompression, VideoCompressor.reencodeVideo,
      h, hbig, hre]
  · intro ext hs
    simp [VideoCompressor.compress, hs]

/-- C5, witness: a small input (1,000 bytes) whose remux attempt fails
    is copied verbatim to an output named with the plain filename. -/
theorem claim_C5_video_strategy_chain_witness :
    VideoCompressor.intelligentCompression "compressed" "clip.mp4"
      { originalSize := 1000, remux := { toolOk := false, returncode := 1, outputSize := 0 },
        reencode := { toolOk := false, returncode := 1, outputSize := 0 } } =
      some { path := "compressed/clip.mp4", size := 1000, method := VideoMethod.skipCopy } :=
  (claim_C5_video_strategy_chain "compressed" "clip.mp4"
    { originalSize := 1000, remux := { toolOk := false, returncode := 1, outputSize := 0 },
      reencode := { toolOk := false, returncode := 1, outputSize := 0 } }).2.2.2.1
    (by decide) (by decide)

/-- The directory batch equals one record per regular file, each record
    a function of its own entry alone. -/
theorem compress_directory_eq_filter_map (entries : List DirEntry) :
    CompressionService.compress_directory entries =
      (entries.filter (fun e => e.isFile)).map
        (fun e => CompressionService.record_of e.info) := by
  induction entries with
  | nil => rfl
  | cons e rest ih =>
    by_cases h : e.isFile <;>
      simp [CompressionService.compress_directory, h, ih]

/-- C7: the directory batch yields exactly the records of its regular
    files in order; an entry anywhere in the list contributes exactly
    its own record and leaves the records of every other entry intact
    (a failure never aborts the batch); a failed file still yields a
    record with success false; and the multi-file batch yields exactly
    one record per input file, directories expanded non-recursively. -/
theorem claim_C7_one_record_per_file (entries : List DirEntry)
    (inputs : List CompressionService.InputPath) :
    CompressionService.compress_directory entries =
      (entries.filter (fun e => e.isFile)).map
        (fun e => CompressionService.record_of e.info) ∧
    (∀ (pre post : List DirEntry) (e : DirEntry),
      CompressionService.compress_directory (pre ++ e :: post) =
        CompressionService.compress_directory pre ++
          (if e.isFile then [CompressionService.record_of e.info] else []) ++
          CompressionService.compress_directory post) ∧
    (∀ f : FileInfo, f.compressResult = none →
      (CompressionService.record_of f).success = false ∧
      (CompressionService.record_of f).input_file = f.name ∧
      (CompressionService.record_of f).output_file = none) ∧
    (CompressionService.compress_multiple_files inputs).length =
      (inputs.map CompressionService.inputFileCount).sum := by
  refine ⟨compress_directory_eq_filter_map entries, ?_, ?_, ?_⟩
  · intro pre post e
    rw [compress_directory_eq_filter_map, compress_directory_eq_filter_map,
      compress_directory_eq_filter_map]
    by_cases h : e.isFile <;> simp [h, List.filter_append]
  · intro f hf
    simp [CompressionService.record_of, hf]
  · induction inputs with
    | nil => rfl
    | cons p rest ih =>
      cases p with
      | file f =>
        simp only [CompressionService.compress_multiple_files,
          CompressionService.inputFileCount, List.length_cons, List.map_cons,
          List.sum_cons, ih]
        omega
      | dir es =>
        simp [CompressionService.compress_multiple_files,
          CompressionService.inputFileCount, compress_directory_eq_filter_map, ih]
      | other nm =>
        simp [CompressionService.compress_multiple_files,
          CompressionService.inputFileCount, ih]

/-- C7, witness: a batch whose first file fails still yields a failure
    record for it and a record for the following file — two records for
    two input files. -/
theorem claim_C7_one_record_per_file_witness :
    (CompressionService.record_of
      { name := "bad.png", size := 10, compressResult := none }).success = false ∧
    (CompressionService.compress_multiple_files
      [CompressionService.InputPath.file
        { name := "bad.png", size := 10, compressResult := none },
       CompressionService.InputPath.file
        { name := "good.jpg", size := 20,
          compressResult := some ("compressed/compressed_good.jpg", 5) }]).length = 2 := by
  constructor
  · exact ((claim_C7_one_record_per_file [] []).2.2.1 _ rfl).1
  · rw [(claim_C7_one_record_per_file []
      [CompressionService.InputPath.file
        { name := "bad.png", size := 10, compressResult := none },
       CompressionService.InputPath.file
        { name := "good.jpg", size := 20,
          compressResult := some ("compressed/compressed_good.jpg", 5) }]).2.2.2]
    rfl

/-- C4: when the derived destination key already exists — in particular
    in the state left by a first call whose background upload completed
    — a repeated call with identical arguments answers skipped,
    performs no storage write and schedules no background task. -/
theorem claim_C4_idempotent_rerun (st : S3State) (key : String) (c : Bool) (q : String)
    (hq : validTier q = true) (hsrc : st.sourceKeys.contains key = true) :
    (st.destKeys.contains (destKey key c) = true →
      process_single_image st key c q =
        { action := ProcAction.skipped,
          reads := [("source", key), ("dest", destKey key c)],
          writes := [], tasks := [] }) ∧
    process_single_image (uploadCompleted st key c) key c q =
      { action := ProcAction.skipped,
        reads := [("source", key), ("dest", destKey key c)],
        writes := [], tasks := [] } := by
  have hsrc' : key ∈ st.sourceKeys := by simpa using hsrc
  constructor
  · intro hdst
    have hdst' : destKey key c ∈ st.destKeys := by simpa using hdst
    simp [process_single_image, hq, hsrc', hdst']
  · have hdst' : destKey key c ∈ (uploadCompleted st key c).destKeys := by
      simp [uploadCompleted]
    simp [process_single_image, uploadCompleted, hq, hsrc', hdst']

/-- C4, witness: re-submitting a processed key answers skipped with no
    writes and no tasks. -/
theorem claim_C4_idempotent_rerun_witness :
    process_single_image
      { sourceKeys := ["animals/fox.jpg"], destKeys := ["compressed/animals/fox.jpg"] }
      "animals/fox.jpg" true "medium" =
      { action := ProcAction.skipped,
        reads := [("source", "animals/fox.jpg"), ("dest", "compressed/animals/fox.jpg")],
        writes := [], tasks := [] } :=
  (claim_C4_idempotent_rerun
    { sourceKeys := ["animals/fox.jpg"], destKeys := ["compressed/animals/fox.jpg"] }
    "animals/fox.jpg" true "medium" (by decide) (by decide)).1 (by decide)

/-- C9: an unrecognized tier is rejected before any storage operation —
    the response is the invalid-argument outcome with no reads, no
    writes and no scheduled task; every task the boundary schedules
    carries the validated tier unchanged; and for each recognized tier
    the applied settings are that tier's table row, whatever the shared
    configuration held before, so no call runs with a substituted tier. -/
theorem claim_C9_invalid_tier_rejected :
    (∀ (st : S3State) (key : String) (c : Bool) (q : String), validTier q = false →
      process_single_image st key c q =
        { action := ProcAction.invalidQuality, reads := [], writes := [], tasks := [] }) ∧
    (∀ (st : S3State) (key : String) (c : Bool) (q : String) (t : Request),
      t ∈ (process_single_image st key c q).tasks → t.quality = q ∧ validTier q = true) ∧
    (∀ cfg : CompressorConfig, applyQualitySettings "low" cfg =
      { JPEG_QUALITY := 75, PNG_COMPRESSION_LEVEL := 9, FFMPEG_IMAGE_QUALITY := 3 }) ∧
    (∀ cfg : CompressorConfig, applyQualitySettings "medium" cfg =
      { JPEG_QUALITY := 85, PNG_COMPRESSION_LEVEL := 6, FFMPEG_IMAGE_QUALITY := 2 }) ∧
    (∀ cfg : CompressorConfig, applyQualitySettings "high" cfg =
      { JPEG_QUALITY := 95, PNG_COMPRESSION_LEVEL := 3, FFMPEG_IMAGE_QUALITY := 1 }) := by
  refine ⟨?_, ?_, fun cfg => rfl, fun cfg => rfl, fun cfg => rfl⟩
  · intro st key c q hq
    simp [process_single_image, hq]
  · intro st key c q t ht
    unfold process_single_image at ht
    split_ifs at ht with h1 h2 h3
    · simp at ht
    · simp at ht
    · simp at ht
    · simp only [List.mem_singleton] at ht
      subst ht
      cases hb : validTier q with
      | false => exact absurd hb h1
      | true => exact ⟨rfl, rfl⟩

/-- C9, witness: a request with tier ultra is rejected with no reads,
    writes or tasks, and tier high applies the 95/3/1 row over an
    arbitrary prior shared state. -/
theorem claim_C9_invalid_tier_rejected_witness :
    process_single_image { sourceKeys := ["k.jpg"], destKeys := [] } "k.jpg" true "ultra" =
      { action := ProcAction.invalidQuality, reads := [], writes := [], tasks := [] } ∧
    applyQualitySettings "high"
      { JPEG_QUALITY := 75, PNG_COMPRESSION_LEVEL := 9, FFMPEG_IMAGE_QUALITY := 3 } =
      { JPEG_QUALITY := 95, PNG_COMPRESSION_LEVEL := 3, FFMPEG_IMAGE_QUALITY := 1 } :=
  ⟨claim_C9_invalid_tier_rejected.1 _ "k.jpg" true "ultra" (by decide),
    claim_C9_invalid_tier_rejected.2.2.2.2
      { JPEG_QUALITY := 75, PNG_COMPRESSION_LEVEL := 9, FFMPEG_IMAGE_QUALITY := 3 }⟩

/-- C3, counterexample: a run that downloaded its original (a 10-byte
    temp file) and then hits an unexpected exception at the stat of
    that file exits through the outer handler with no deletion
    attempted for the artifact — cleanup is not reached on this exit
    path, though the terminal state is still reached without raising. -/
theorem claim_C3_counterexample :
    process_image_background true
      { download := some 10, statOriginalRaises := true, statCompressedRaises := false,
        compression := none, uploadOk := false, statFinalRaises := false,
        deleteOriginalRaises := false, deleteCompressedRaises := false } =
      { outcome := Outcome.caughtException, uploaded := none,
        cleanupOriginal := false, cleanupCompressed := false, raised := false } ∧
    (process_image_background true
      { download := some 10, statOriginalRaises := true, statCompressedRaises := false,
        compression := none, uploadOk := false, statFinalRaises := false,
        deleteOriginalRaises := false, deleteCompressedRaises := false }).cleanupOriginal =
      false := by
  decide

/-- C3, amended: on every run that reaches the cleanup lines — download
    succeeded with a non-empty file and no unexpected exception was
    raised at the unprotected stat calls — deletion of the downloaded
    original is attempted, and deletion of the compressed derivative is
    attempted exactly when it is distinct (compression requested and
    produced), on upload success and failure alike; no exception ever
    escapes the task, and deletion failures change nothing in the
    trace.  When an unexpected exception is raised before cleanup, the
    outer handler swallows it without attempting deletion. -/
theorem claim_C3_cleanup_best_effort (compress : Bool) (env : OrchEnv) (n : Nat)
    (hd : env.download = some n) (hn : 0 < n)
    (h1 : env.statOriginalRaises = false) (h2 : env.statFinalRaises = false) :
    (process_image_background compress env).cleanupOriginal = true ∧
    (process_image_background compress env).cleanupCompressed =
      (compress && (env.compression.isSome && !env.statCompressedRaises)) ∧
    (∀ (c : Bool) (e : OrchEnv), (process_image_background c e).raised = false) ∧
    (∀ (c b1 b2 : Bool) (e : OrchEnv),
      process_image_background c
        { e with deleteOriginalRaises := b1, deleteCompressedRaises := b2 } =
        process_image_background c e) := by
  have hne : n ≠ 0 := Nat.pos_iff_ne_zero.mp hn
  refine ⟨?_, ?_, ?_, ?_⟩
  · cases compress <;> rcases hcomp : env.compression with _ | csize <;>
      cases hscr : env.statCompressedRaises <;> cases hup : env.uploadOk <;>
      simp [process_image_background, hd, h1, h2, hcomp, hscr, hup, hne]
  · cases compress <;> rcases hcomp : env.compression with _ | csize <;>
      cases hscr : env.statCompressedRaises <;> cases hup : env.uploadOk <;>
      simp [process_image_background, hd, h1, h2, hcomp, hscr, hup, hne]
  · intro c e
    cases he : e.download with
    | none => simp [process_image_background, he]
    | some m =>
      simp only [process_image_background, he]
      split_ifs <;> rfl
  · intro c b1 b2 e
    rfl

/-- C3, witness: a normal compressed run with both unlink attempts
    failing still attempts deletion of both artifacts. -/
theorem claim_C3_cleanup_best_effort_witness :
    (process_image_background true
      { download := some 10, statOriginalRaises := false, statCompressedRaises := false,
        compression := some 4, uploadOk := true, statFinalRaises := false,
        deleteOriginalRaises := true, deleteCompressedRaises := true }).cleanupOriginal =
      true ∧
    (process_image_background true
      { download := some 10, statOriginalRaises := false, statCompressedRaises := false,
        compression := some 4, uploadOk := true, statFinalRaises := false,
        deleteOriginalRaises := true, deleteCompressedRaises := true }).cleanupCompressed =
      true := by
  have h := claim_C3_cleanup_best_effort true
    { download := some 10, statOriginalRaises := false, statCompressedRaises := false,
      compression := some 4, uploadOk := true, statFinalRaises := false,
      deleteOriginalRaises := true, deleteCompressedRaises := true } 10 rfl (by decide) rfl rfl
  refine ⟨h.1, ?_⟩
  rw [h.2.1]
  rfl

/-- C8: when download succeeded and compression fails outright, the
    unit silently uploads the original downloaded artifact; the
    terminal state is decided by the upload alone (done on success,
    failed-upload on failure — never a compression failure state); no
    exception escapes; and an exception inside apply_compression is
    absorbed into a None outcome flag before the orchestrator sees it. -/
theorem claim_C8_compression_failure_not_failed (env : OrchEnv) (n : Nat)
    (hd : env.download = some n)
    (hs : env.statOriginalRaises = false)
    (hc : env.compression = none) :
    (process_image_background true env).uploaded = some UpFile.original ∧
    (process_image_background true env).raised = false ∧
    (env.uploadOk = true → env.statFinalRaises = false →
      (process_image_background true env).outcome = Outcome.done) ∧
    (env.uploadOk = false →
      (process_image_background true env).outcome = Outcome.uploadFailed) ∧
    (∀ (ext : String) (aenv : ApplyEnv), applyCompressionBody ext aenv = PyResult.exc →
      apply_compression ext aenv = none) := by
  refine ⟨?_, ?_, ?_, ?_, ?_⟩
  · cases hup : env.uploadOk <;> cases hsf : env.statFinalRaises <;>
      simp [process_image_background, hd, hs, hc, hup, hsf]
  · cases hup : env.uploadOk <;> cases hsf : env.statFinalRaises <;>
      simp [process_image_background, hd, hs, hc, hup, hsf]
  · intro hup hsf
    simp [process_image_background, hd, hs, hc, hup, hsf]
  · intro hup
    simp [process_image_background, hd, hs, hc, hup]
  · intro ext aenv h
    simp [apply_compression, h]

/-- C8, witness: a concrete run with failed compression uploads the
    original and terminates done. -/
theorem claim_C8_compression_failure_not_failed_witness :
    (process_image_background true
      { download := some 10, statOriginalRaises := false, statCompressedRaises := false,
        compression := none, uploadOk := true, statFinalRaises := false,
        deleteOriginalRaises := false, deleteCompressedRaises := false }).uploaded =
      some UpFile.original ∧
    (process_image_background true
      { download := some 10, statOriginalRaises := false, statCompressedRaises := false,
        compression := none, uploadOk := true, statFinalRaises := false,
        deleteOriginalRaises := false, deleteCompressedRaises := false }).outcome =
      Outcome.done := by
  have h := claim_C8_compression_failure_not_failed
    { download := some 10, statOriginalRaises := false, statCompressedRaises := false,
      compression := none, uploadOk := true, statFinalRaises := false,
      deleteOriginalRaises := false, deleteCompressedRaises := false } 10 rfl rfl rfl
  exact ⟨h.1, h.2.2.1 rfl rfl⟩

/-- C10, witness: a tool success whose output (150 bytes) is larger
    than the input (100 bytes) is still returned as a success, and the
    ratio at those sizes is negative. -/
theorem claim_C10_no_size_requirement_witness :
    ImageCompressor.compress ".jpg"
      { inputSize := 100, ffmpeg := { toolOk := true, returncode := 0, outputSize := 150 },
        pil := { ok := false, outputSize := 0 } } =
      some { method := ImageMethod.ffmpeg, size := 150 } ∧
    calculate_compression_ratio 100 150 < 0 :=
  ⟨claim_C10_no_size_requirement.2.1 _ (by decide),
    claim_C10_no_size_requirement.2.2 100 150 (by decide) (by decide)⟩

end Compressor
